import Mathlib

/-!
Shallow embedding of the pdf_claude_ocr repository (src/claude_ocr.py,
src/pdf_converter.py, src/file_manager.py) and proofs of the claims about it.

Modelling conventions:
* External effects (file reads, the model API, the clock, the filesystem) are
  passed in as explicit oracle values; an operation that may raise is an
  oracle of type Except String α, where the error carries str(e).
* Python dicts keyed by 0..N-1 become association lists or index functions.
* Python floats in the image-resize computation are modelled as exact
  rationals; int() truncation of a nonnegative value is Int.floor + toNat.
-/

namespace ClaudeOCR

/-- Instruction text for the general document profile (claude_ocr.py lines 56-62). -/
def generalPrompt : String :=
  "이 이미지에 포함된 모든 텍스트를 정확히 추출해 주세요.\n다음 사항을 지켜주세요:\n- 원본의 줄바꿈과 단락 구조를 최대한 유지해 주세요\n- 제목, 소제목 등의 계층구조를 보존해 주세요\n- 특수문자나 기호도 정확히 포함해 주세요\n- 표가 있다면 표 형태로 정리해 주세요\n- 한글과 영어가 섞여 있어도 모두 정확히 추출해 주세요"

/-- Instruction text for the table document profile (claude_ocr.py lines 64-68). -/
def tablePrompt : String :=
  "이 이미지의 표를 정확히 추출해 주세요.\n- 행과 열 구조를 명확히 구분해 주세요\n- 셀 병합이 있다면 표시해 주세요\n- 숫자 데이터는 정확히 보존해 주세요\n- 표의 헤더와 내용을 구분해 주세요"

/-- Instruction text for the handwritten document profile (claude_ocr.py lines 70-73). -/
def handwrittenPrompt : String :=
  "이 손글씨 문서의 텍스트를 추출해 주세요.\n- 읽기 어려운 부분은 [불명확] 표시해 주세요\n- 추정되는 단어는 [추정: 단어] 형태로 표시해 주세요\n- 가능한 한 정확하게 읽어주세요"

/-- Instruction text for the form document profile (claude_ocr.py lines 75-78). -/
def formPrompt : String :=
  "이 양식/폼의 모든 텍스트를 추출해 주세요.\n- 필드명과 입력된 값을 구분해 주세요\n- 체크박스나 선택 항목의 상태도 표시해 주세요\n- 양식의 구조를 유지해 주세요"

/-- The prompts dictionary of get_ocr_prompt (claude_ocr.py lines 55-79), as an
association list in source order. -/
def prompts : List (String × String) :=
  [("general", generalPrompt),
   ("table", tablePrompt),
   ("handwritten", handwrittenPrompt),
   ("form", formPrompt)]

/-- Python dict.get(key, default): first matching key wins, otherwise the default. -/
def dictGet (d : List (String × String)) (key : String) (dflt : String) : String :=
  match d.find? (fun p => p.fst == key) with
  | some p => p.snd
  | none => dflt

/-- ClaudeOCR.get_ocr_prompt (claude_ocr.py lines 45-80):
prompts.get(document_type, prompts["general"]). -/
def get_ocr_prompt (document_type : String) : String :=
  dictGet prompts document_type generalPrompt

/-- The mime_type_map dictionary of extract_text_from_image
(claude_ocr.py lines 99-105). -/
def mime_type_map : List (String × String) :=
  [(".png", "image/png"),
   (".jpg", "image/jpeg"),
   (".jpeg", "image/jpeg"),
   (".gif", "image/gif"),
   (".webp", "image/webp")]

/-- Model of Path(image_path).suffix.lower(): the final dotted extension of the
path, lowercased, or the empty string when there is no dot. -/
def suffixLower (p : String) : String :=
  let parts := p.splitOn "."
  if parts.length ≥ 2 then "." ++ (parts.getLastD "").toLower else ""

/-- External-effect oracle for one call of extract_text_from_image: the outcome
of the file read plus base64 encoding (image_to_base64, which re-raises on
failure), and the outcome of the model API call, whose success carries the list
of text segments of message.content. -/
structure OcrEnv where
  encodeResult : Except String String
  apiResult : Except String (List String)

/-- The try-block of ClaudeOCR.extract_text_from_image (claude_ocr.py lines
93-137): encode the image, pick the MIME type, call the API, then return the
first content segment, or the fixed sentinel when the content list is empty.
Any raise inside the block is an Except.error. -/
def ocrBody (image_path document_type : String) (env : OcrEnv) :
    Except String String := do
  let _base64_image ← env.encodeResult
  let _mime_type := dictGet mime_type_map (suffixLower image_path) "image/png"
  let _prompt := get_ocr_prompt document_type
  let content ← env.apiResult
  match content with
  | t :: _ => pure t
  | [] => pure "텍스트를 추출할 수 없습니다."

/-- ClaudeOCR.extract_text_from_image (claude_ocr.py lines 82-141): the whole
body is wrapped in try/except Exception, and the handler returns the error
marker string instead of re-raising. -/
def extract_text_from_image (image_path document_type : String) (env : OcrEnv) :
    String :=
  match ocrBody image_path document_type env with
  | .ok s => s
  | .error e => "오류 발생: " ++ e

/-- One per-page record of the batch result dictionary
(claude_ocr.py lines 172-177 and 191-196). -/
structure PageResult where
  page : Nat
  text : String
  status : String
  image_path : String
deriving DecidableEq, Repr

/-- One iteration of the extract_text_batch loop body (claude_ocr.py lines
167-196) for index i: if the transcription call returns text, record a success
result and, if a callback is supplied, invoke it with (i+1, total); if the call
raises, the except-branch records an error result and invokes no callback.
Returns the recorded entry and the list of callback invocations this iteration
makes. The inter-call sleep and the logging calls have no observable effect in
this model. -/
def batchStep (image_path : String) (i total : Nat)
    (outcome : Except String String) (has_callback : Bool) :
    PageResult × List (Nat × Nat) :=
  match outcome with
  | .ok text =>
      (⟨i + 1, text, "success", image_path⟩,
       if has_callback then [(i + 1, total)] else [])
  | .error e =>
      (⟨i + 1, "오류 발생: " ++ e, "error", image_path⟩, [])

/-- The for-loop of extract_text_batch over enumerate(image_paths): builds the
results dictionary (as an association list keyed by the loop index, each index
assigned exactly once) and concatenates the callback invocations of all
iterations in order. -/
def batchLoop (outcome : Nat → Except String String) (has_callback : Bool)
    (total : Nat) : List (Nat × String) → List (Nat × PageResult) × List (Nat × Nat)
  | [] => ([], [])
  | (i, p) :: rest =>
      let step := batchStep p i total (outcome i) has_callback
      let tail := batchLoop outcome has_callback total rest
      ((i, step.1) :: tail.1, step.2 ++ tail.2)

/-- ClaudeOCR.extract_text_batch (claude_ocr.py lines 143-199). The outcome
oracle gives, for each index, the behaviour of the
extract_text_from_image call at that index (ok text, or a raise with message
str(e)); it absorbs the image path and document type. Returns the results
dictionary and the sequence of progress-callback invocations. -/
def extract_text_batch (image_paths : List String)
    (outcome : Nat → Except String String) (has_callback : Bool) :
    List (Nat × PageResult) × List (Nat × Nat) :=
  batchLoop outcome has_callback image_paths.length image_paths.enum

/-- The for-loop of ClaudeOCR.extract_with_retry (claude_ocr.py lines 218-228),
by recursion on the remaining iterations (fuel = max_retries - attempt).
Returns (function result, sleeps performed in seconds, attempts made), where
the function result is none when the loop exhausts without returning or
raising (Python then implicitly returns None; reachable only for
max_retries = 0). On a raising attempt the code re-raises when
attempt == max_retries - 1 and otherwise sleeps 2 ^ attempt seconds and
retries. -/
def retryLoop (outcome : Nat → Except String String) (max_retries : Nat) :
    Nat → Nat → Option (Except String String) × List Nat × Nat
  | 0, _ => (none, [], 0)
  | fuel + 1, attempt =>
      match outcome attempt with
      | .ok t => (some (.ok t), [], 1)
      | .error e =>
          if attempt = max_retries - 1 then (some (.error e), [], 1)
          else
            let rest := retryLoop outcome max_retries fuel (attempt + 1)
            (rest.1, 2 ^ attempt :: rest.2.1, rest.2.2 + 1)

/-- ClaudeOCR.extract_with_retry (claude_ocr.py lines 201-228): run the retry
loop with attempt starting at 0. The outcome oracle gives, for each attempt
number, the behaviour of the underlying extract_text_from_image call. -/
def extract_with_retry (outcome : Nat → Except String String)
    (max_retries : Nat) : Option (Except String String) × List Nat × Nat :=
  retryLoop outcome max_retries max_retries 0

end ClaudeOCR

namespace PDFConverter

/-- Abstract raster image: dimensions, colour mode, and accumulated contrast
and sharpness enhancement factors (both 1 on a fresh image). -/
structure PImage where
  width : Nat
  height : Nat
  mode : String
  contrast : ℚ
  sharpness : ℚ
deriving DecidableEq, Repr

/-- The scale factor of optimize_image_for_ocr (pdf_converter.py line 100):
max(1000 / width, 1000 / height), with Python float division modelled as exact
rational division. -/
def scale_factor (w h : Nat) : ℚ :=
  max (1000 / (w : ℚ)) (1000 / (h : ℚ))

/-- Python int() truncation of a nonnegative rational. -/
def intTrunc (q : ℚ) : Nat := (⌊q⌋).toNat

/-- The upscale step of optimize_image_for_ocr (pdf_converter.py lines
97-103): if either dimension is below 1000, resize both by the common scale
factor. -/
def resizeStep (img : PImage) : PImage :=
  if img.width < 1000 ∨ img.height < 1000 then
    let s := scale_factor img.width img.height
    { img with
        width := intTrunc ((img.width : ℚ) * s),
        height := intTrunc ((img.height : ℚ) * s) }
  else img

/-- The alpha-flattening / mode-conversion step (pdf_converter.py lines
105-114): RGBA and LA are pasted onto a white RGB background; any other
non-RGB mode is converted to RGB. -/
def flattenStep (img : PImage) : PImage :=
  if img.mode = "RGBA" ∨ img.mode = "LA" then { img with mode := "RGB" }
  else if img.mode ≠ "RGB" then { img with mode := "RGB" }
  else img

/-- ImageEnhance.Contrast(image).enhance(1.2) (pdf_converter.py lines 116-118). -/
def contrastStep (img : PImage) : PImage :=
  { img with contrast := img.contrast * (12 / 10 : ℚ) }

/-- ImageEnhance.Sharpness(image).enhance(1.1) (pdf_converter.py lines 120-122). -/
def sharpnessStep (img : PImage) : PImage :=
  { img with sharpness := img.sharpness * (11 / 10 : ℚ) }

/-- The four successive statements of the try-block of optimize_image_for_ocr,
in source order. -/
inductive OptStep
  | resize
  | flatten
  | contrast
  | sharpness
deriving DecidableEq, Repr

/-- Effect of one step of the try-block on the local variable image. -/
def applyStep : OptStep → PImage → PImage
  | .resize => resizeStep
  | .flatten => flattenStep
  | .contrast => contrastStep
  | .sharpness => sharpnessStep

/-- Source order of the steps of the try-block. -/
def optSteps : List OptStep := [.resize, .flatten, .contrast, .sharpness]

/-- Run the try-block with an injected failure point: a step equal to failAt
raises before producing its effect, and the except-handler (pdf_converter.py
lines 126-128) returns the current value of the local variable image. -/
def optRun (failAt : Option OptStep) : List OptStep → PImage → PImage
  | [], img => img
  | s :: rest, img =>
      if failAt = some s then img else optRun failAt rest (applyStep s img)

/-- PDFConverter.optimize_image_for_ocr (pdf_converter.py lines 86-128) with
an explicit failure point (none = no step fails). -/
def optimize_image_for_ocr (img : PImage) (failAt : Option OptStep) : PImage :=
  optRun failAt optSteps img

/-- Fuel-driven floor of the base-2 logarithm of a natural number (call it
with the number itself as fuel). -/
def log2F : Nat → Nat → Nat
  | 0, _ => 0
  | fuel + 1, n => if n ≤ 1 then 0 else log2F fuel (n / 2) + 1

/-- Round P / 2 ^ k to the nearest integer, ties to even. -/
def rnShift (P k : Nat) : Nat :=
  if k = 0 then P
  else
    let q0 := P / 2 ^ k
    let r := P % 2 ^ k
    let half := 2 ^ (k - 1)
    if r < half then q0
    else if half < r then q0 + 1
    else if q0 % 2 = 0 then q0 else q0 + 1

/-- Integer part of (a / b) * 2 ^ t for positive naturals a, b. -/
def divMant (a b : Nat) (t : Int) : Nat :=
  (a * 2 ^ (max t 0).toNat) / (b * 2 ^ (max (-t) 0).toNat)

/-- IEEE-754 double-precision result of the Python true division a / b of two
positive integers, as a dyadic pair (mantissa, exponent) with value
mantissa * 2 ^ exponent: the quotient is rounded to 53 significant bits, to
nearest, ties to even (normal range; no overflow or subnormal handling, which
the resize computation never reaches). -/
def fdivP (a b : Nat) : Nat × Int :=
  let t0 : Int := 52 - ((log2F a a : Int) - (log2F b b : Int))
  let t := if divMant a b t0 < 2 ^ 52 then t0 + 1 else t0
  let N := a * 2 ^ (max t 0).toNat
  let D := b * 2 ^ (max (-t) 0).toNat
  let q0 := N / D
  let r := N % D
  let m := if 2 * r < D then q0
    else if D < 2 * r then q0 + 1
    else if q0 % 2 = 0 then q0 else q0 + 1
  (m, -t)

/-- IEEE-754 double-precision product of a natural number (exact in a double
below 2 ^ 53) with a dyadic float: the integer product of the mantissas is
rounded back to 53 significant bits, to nearest, ties to even. -/
def fmulP (c : Nat) (f : Nat × Int) : Nat × Int :=
  let P := c * f.1
  let bits := log2F P P
  let k := if 52 < bits then bits - 52 else 0
  (rnShift P k, f.2 + k)

/-- Value comparison of two nonnegative dyadic floats. -/
def dyLe (f g : Nat × Int) : Bool :=
  let d := f.2 - g.2
  if 0 ≤ d then f.1 * 2 ^ d.toNat ≤ g.1
  else f.1 ≤ g.1 * 2 ^ (-d).toNat

/-- Python max of two nonnegative dyadic floats. -/
def dyMax (f g : Nat × Int) : Nat × Int := if dyLe f g then g else f

/-- Python int() truncation of a nonnegative dyadic float. -/
def dyTrunc (f : Nat × Int) : Nat :=
  if 0 ≤ f.2 then f.1 * 2 ^ f.2.toNat else f.1 / 2 ^ (-f.2).toNat

/-- The scale factor of pdf_converter.py line 100 computed in Python
double-precision float arithmetic: max(1000 / width, 1000 / height). -/
def scale_factor_float (w h : Nat) : Nat × Int :=
  dyMax (fdivP 1000 w) (fdivP 1000 h)

/-- The upscale step of optimize_image_for_ocr (pdf_converter.py lines
97-103) computed in Python double-precision float arithmetic: the faithful
model of what the interpreter does, of which resizeStep is the exact-rational
idealization. -/
def resizeStepFloat (img : PImage) : PImage :=
  if img.width < 1000 ∨ img.height < 1000 then
    let s := scale_factor_float img.width img.height
    { img with
        width := dyTrunc (fmulP img.width s),
        height := dyTrunc (fmulP img.height s) }
  else img

/-- Errors that convert_pdf_to_images can propagate to its caller: the
distinct missing-poppler error (re-raised unchanged by the handler at
pdf_converter.py line 214), the ValueError produced from a PDFSyntaxError
(line 218), and any other re-raised exception (line 221). -/
inductive ConvErr
  | pdfInfoNotInstalled (msg : String)
  | valueError (msg : String)
  | other (msg : String)
deriving DecidableEq, Repr

/-- Filesystem side effects of convert_pdf_to_images, in order of occurrence:
creation of a temporary output directory (tempfile.mkdtemp), creation of a
named output directory (os.makedirs), and saving of one page image. -/
inductive ConvEvent
  | mkdtemp
  | makedirs (dir : String)
  | saveImage (path : String)
deriving DecidableEq, Repr

/-- Exceptions the convert_from_path call can raise, distinguished by the
except clauses at pdf_converter.py lines 216-221. -/
inductive RasterExn
  | syntaxError (msg : String)
  | otherError (msg : String)
deriving DecidableEq, Repr

/-- External-effect oracle for one call of convert_pdf_to_images: whether the
poppler check succeeds, the directory name mkdtemp would create, the outcome
of convert_from_path, and whether the per-page optimize-and-save block
succeeds for each page index. -/
structure ConvEnv where
  poppler_ok : Bool
  tmpdir : String
  convertResult : Except RasterExn (List PDFConverter.PImage)
  saveOk : Nat → Bool

/-- Zero-padded four-digit page number, as in the format page_{n:04d}. -/
def pad4 (n : Nat) : String :=
  let s := toString n
  String.mk (List.replicate (4 - s.length) '0') ++ s

/-- The per-page loop of convert_pdf_to_images (pdf_converter.py lines
187-209) over enumerate(images): each page is optimized and saved to
output_folder/page_NNNN.png; on a raise inside the body the page is skipped
(continue) and the loop goes on. Returns the collected paths and the save
events. -/
def convLoop (output_folder : String) (first_page : Nat) (saveOk : Nat → Bool) :
    List (Nat × PDFConverter.PImage) → List String × List ConvEvent
  | [] => ([], [])
  | (i, _img) :: rest =>
      let page_num := first_page + i
      let path := output_folder ++ "/page_" ++ pad4 page_num ++ ".png"
      let tail := convLoop output_folder first_page saveOk rest
      if saveOk i then (path :: tail.1, ConvEvent.saveImage path :: tail.2)
      else tail

/-- PDFConverter.convert_pdf_to_images (pdf_converter.py lines 130-221):
check poppler first and raise the distinct PDFInfoNotInstalledError before
any directory or file is created; then create the output directory, convert,
and run the per-page save loop. Returns the result (paths or propagated
error) paired with the ordered filesystem events. -/
def convert_pdf_to_images (env : ConvEnv) (output_folder : Option String)
    (first_page : Option Nat) : Except ConvErr (List String) × List ConvEvent :=
  if ¬ env.poppler_ok then
    (.error (.pdfInfoNotInstalled
        "Poppler이 설치되지 않았습니다. 설치 가이드를 확인해주세요."), [])
  else
    let folder := match output_folder with
      | none => env.tmpdir
      | some d => d
    let dirEvent := match output_folder with
      | none => ConvEvent.mkdtemp
      | some d => ConvEvent.makedirs d
    match env.convertResult with
    | .error (.syntaxError e) =>
        (.error (.valueError ("PDF 파일이 손상되었거나 올바르지 않습니다: " ++ e)),
         [dirEvent])
    | .error (.otherError e) => (.error (.other e), [dirEvent])
    | .ok images =>
        let looped := convLoop folder ((first_page).getD 1) env.saveOk images.enum
        (.ok looped.1, dirEvent :: looped.2)

end PDFConverter

namespace FileManager

/-- The 50-character banner line of save_as_txt. -/
def eqLine : String := String.mk (List.replicate 50 '=')

/-- The 20-character label underline of save_as_txt. -/
def dashLine : String := String.mk (List.replicate 20 '-')

/-- Default page_separator argument of save_as_txt (file_manager.py line 66). -/
def default_page_separator : String := "\n" ++ eqLine ++ "\n"

/-- The file header written by save_as_txt (file_manager.py lines 85-88). -/
def txtHeader (n : Nat) : String :=
  "PDF OCR 결과\n" ++ eqLine ++ "\n" ++ "총 페이지 수: " ++ toString n ++ "\n"
    ++ eqLine ++ "\n\n"

/-- The file footer written by save_as_txt (file_manager.py lines 109-110). -/
def txtFooter (n : Nat) : String :=
  "\n\n" ++ eqLine ++ "\n처리 완료: " ++ toString n ++ "페이지"

/-- The text written for one page by the save_as_txt loop body (file_manager.py
lines 94-102), excluding the trailing separator: the optional page-number
label with its underline, then the page text, error-prefixed exactly when the
status is not success. -/
def txtPageBlock (include_page_numbers : Bool) (r : ClaudeOCR.PageResult) :
    String :=
  (if include_page_numbers
   then "페이지 " ++ toString r.page ++ "\n" ++ dashLine ++ "\n" else "")
    ++ (if r.status = "success" then r.text else "[오류] " ++ r.text)

/-- The page loop of save_as_txt (file_manager.py lines 91-106) over the
sorted key list: after each page block, the separator is written exactly when
the key is below the maximum key. -/
def txtLoop (res : Nat → ClaudeOCR.PageResult) (include_page_numbers : Bool)
    (sep : String) (maxKey : Nat) : List Nat → String
  | [] => ""
  | i :: rest =>
      txtPageBlock include_page_numbers (res i)
        ++ (if i < maxKey then sep else "")
        ++ txtLoop res include_page_numbers sep maxKey rest

/-- FileManager.save_as_txt (file_manager.py lines 61-117), specialised to a
result mapping whose key set is exactly \x7b0..n-1\x7d (the shape the
orchestrator produces): sorted(keys) is then [0, ..., n-1] and max(keys) is
n-1 (the max is only evaluated inside the loop, so never on an empty
mapping). Returns the full text written to the output file. -/
def save_as_txt (n : Nat) (res : Nat → ClaudeOCR.PageResult)
    (include_page_numbers : Bool) (sep : String) : String :=
  txtHeader n ++ txtLoop res include_page_numbers sep (n - 1) (List.range n)
    ++ txtFooter n

/-- Separator-interleaved concatenation: the separator appears between
consecutive items and after no item, in particular not at all for zero or one
item. -/
def sepJoin (sep : String) : List String → String
  | [] => ""
  | [x] => x
  | x :: y :: rest => x ++ sep ++ sepJoin sep (y :: rest)

/-- Modelled from the spec's words, for the refinement claim about save_as_txt:
header banner with the page count, then the page blocks in ascending key
order joined by the separator (omitted after the last page), then the footer
banner with the total count. -/
def save_as_txt_spec (n : Nat) (res : Nat → ClaudeOCR.PageResult)
    (include_page_numbers : Bool) (sep : String) : String :=
  ("PDF OCR 결과\n" ++ eqLine ++ "\n" ++ "총 페이지 수: " ++ toString n ++ "\n"
      ++ eqLine ++ "\n\n")
    ++ sepJoin sep
        ((List.range n).map (fun i => txtPageBlock include_page_numbers (res i)))
    ++ ("\n\n" ++ eqLine ++ "\n처리 완료: " ++ toString n ++ "페이지")

/-- The two PDF rendering backends of file_manager.py. -/
inductive PdfBackend
  | fpdf
  | reportlab
deriving DecidableEq, Repr

/-- Environment for one call of save_as_pdf_fpdf: whether the fpdf import
succeeded at module load (FPDF_AVAILABLE), whether pdf.add_font finds the
Unicode font file, the boolean result a save_as_pdf_reportlab call would
return, and whether the FPDF rendering and output succeed. -/
structure PdfEnv where
  fpdf_available : Bool
  unicode_font_ok : Bool
  reportlab_result : Bool
  fpdf_output_ok : Bool

/-- FileManager.save_as_pdf_fpdf (file_manager.py lines 119-192): when FPDF is
unavailable, delegate to save_as_pdf_reportlab and return its result; when the
Unicode font fails to load, keep using FPDF with the built-in Arial font
(lines 147-154); any raise in the FPDF path returns False. Returns (boolean
result, backend that rendered, font name used by the FPDF path). -/
def save_as_pdf_fpdf (env : PdfEnv) : Bool × PdfBackend × Option String :=
  if ¬ env.fpdf_available then (env.reportlab_result, .reportlab, none)
  else
    let font_name := if env.unicode_font_ok then "DejaVu" else "Arial"
    if env.fpdf_output_ok then (true, .fpdf, some font_name)
    else (false, .fpdf, some font_name)

end FileManager


namespace ClaudeOCR

/-- C10: get_ocr_prompt is total over arbitrary document-type strings: every
string outside the enumerated set general, table, handwritten, form gets the
general profile's instruction text, which is nonempty — an unrecognized
profile silently selects general-document behaviour. -/
theorem get_ocr_prompt_unrecognized (s : String)
    (h : s ∉ ["general", "table", "handwritten", "form"]) :
    get_ocr_prompt s = get_ocr_prompt "general" ∧ get_ocr_prompt s ≠ "" := by
  simp only [List.mem_cons, List.not_mem_nil, or_false, not_or] at h
  obtain ⟨h1, h2, h3, h4⟩ := h
  have g1 : ("general" == s) = false := beq_eq_false_iff_ne.mpr (Ne.symm h1)
  have g2 : ("table" == s) = false := beq_eq_false_iff_ne.mpr (Ne.symm h2)
  have g3 : ("handwritten" == s) = false := beq_eq_false_iff_ne.mpr (Ne.symm h3)
  have g4 : ("form" == s) = false := beq_eq_false_iff_ne.mpr (Ne.symm h4)
  have hs : get_ocr_prompt s = generalPrompt := by
    simp [get_ocr_prompt, dictGet, prompts, List.find?, g1, g2, g3, g4]
  refine ⟨?_, ?_⟩
  · rw [hs]; rfl
  · rw [hs]; decide

/-- Witness for C10 at the concrete unrecognized profile string invoice. -/
theorem get_ocr_prompt_unrecognized_witness :
    "invoice" ∉ ["general", "table", "handwritten", "form"] ∧
      (get_ocr_prompt "invoice" = get_ocr_prompt "general" ∧
        get_ocr_prompt "invoice" ≠ "") :=
  ⟨by decide, get_ocr_prompt_unrecognized "invoice" (by decide)⟩

/-- C3: extract_text_from_image never propagates an exception: a raise in the
encoding step or in the API call produces the textual error-marker string, an
empty content list produces the fixed sentinel, and neither of those strings
is empty. -/
theorem extract_text_from_image_never_raises (image_path document_type : String)
    (env : OcrEnv) :
    (∀ e, env.encodeResult = .error e →
        extract_text_from_image image_path document_type env = "오류 발생: " ++ e) ∧
    (∀ b e, env.encodeResult = .ok b → env.apiResult = .error e →
        extract_text_from_image image_path document_type env = "오류 발생: " ++ e) ∧
    (∀ b, env.encodeResult = .ok b → env.apiResult = .ok [] →
        extract_text_from_image image_path document_type env
          = "텍스트를 추출할 수 없습니다.") ∧
    (∀ e, "오류 발생: " ++ e ≠ "") ∧
    ("텍스트를 추출할 수 없습니다." : String) ≠ "" := by
  refine ⟨?_, ?_, ?_, ?_, by decide⟩
  · intro e he
    simp [extract_text_from_image, ocrBody, he, Bind.bind, Except.bind]
  · intro b e hb ha
    simp [extract_text_from_image, ocrBody, hb, ha, Bind.bind, Except.bind]
  · intro b hb ha
    simp [extract_text_from_image, ocrBody, hb, ha, Bind.bind, Except.bind,
      Pure.pure, Except.pure]
  · intro e hcon
    have hl := congrArg String.length hcon
    rw [String.length_append] at hl
    have h7 : ("오류 발생: " : String).length = 7 := rfl
    have h0 : ("" : String).length = 0 := rfl
    omega

/-- Witness for C3 at a concrete failing environment and a concrete
empty-content environment. -/
theorem extract_text_from_image_never_raises_witness :
    extract_text_from_image "a.png" "general" ⟨.error "io", .ok []⟩
        = "오류 발생: io" ∧
    extract_text_from_image "a.png" "general" ⟨.ok "b64", .ok []⟩
        = "텍스트를 추출할 수 없습니다." :=
  ⟨(extract_text_from_image_never_raises "a.png" "general"
      ⟨.error "io", .ok []⟩).1 "io" rfl,
   (extract_text_from_image_never_raises "a.png" "general"
      ⟨.ok "b64", .ok []⟩).2.2.1 "b64" rfl rfl⟩

/-- C4: extract_with_retry with max_retries = 3 against an underlying call
that raises on attempts 0 and 1 and succeeds on attempt 2 returns the
successful text after sleeping 1 second then 2 seconds (2 ^ attempt) and
makes exactly three attempts; against a call that raises on all three
attempts it re-raises the last failure after the same two sleeps and no
further sleep, again with exactly three attempts. -/
theorem extract_with_retry_scenario (f g : Nat → Except String String)
    (t e0 e1 d0 d1 d2 : String)
    (hf0 : f 0 = .error e0) (hf1 : f 1 = .error e1) (hf2 : f 2 = .ok t)
    (hg0 : g 0 = .error d0) (hg1 : g 1 = .error d1) (hg2 : g 2 = .error d2) :
    extract_with_retry f 3 = (some (.ok t), [1, 2], 3) ∧
    extract_with_retry g 3 = (some (.error d2), [1, 2], 3) := by
  constructor
  · simp [extract_with_retry, retryLoop, hf0, hf1, hf2]
  · simp [extract_with_retry, retryLoop, hg0, hg1, hg2]

/-- Witness for C4 at concrete outcome oracles. -/
theorem extract_with_retry_scenario_witness :
    extract_with_retry
        (fun n => if n = 0 then .error "a" else if n = 1 then .error "b"
          else .ok "text") 3 = (some (.ok "text"), [1, 2], 3) ∧
    extract_with_retry (fun _ => .error "x") 3
        = (some (.error "x"), [1, 2], 3) :=
  ⟨(extract_with_retry_scenario
      (fun n => if n = 0 then .error "a" else if n = 1 then .error "b"
        else .ok "text") (fun _ => .error "x")
      "text" "a" "b" "x" "x" "x" rfl rfl rfl rfl rfl rfl).1,
   (extract_with_retry_scenario
      (fun n => if n = 0 then .error "a" else if n = 1 then .error "b"
        else .ok "text") (fun _ => .error "x")
      "text" "a" "b" "x" "x" "x" rfl rfl rfl rfl rfl rfl).2⟩

end ClaudeOCR

namespace ClaudeOCR

/-- Keys of the batch loop result are exactly the first components of the
enumerated input, in order. -/
theorem batchLoop_keys (outcome : Nat → Except String String)
    (has_callback : Bool) (total : Nat) (l : List (Nat × String)) :
    ((batchLoop outcome has_callback total l).1).map Prod.fst = l.map Prod.fst := by
  induction l with
  | nil => rfl
  | cons hd tl ih =>
      obtain ⟨i, p⟩ := hd
      simp [batchLoop, ih]

/-- Every record the batch loop produces is tagged success or error. -/
theorem batchLoop_status (outcome : Nat → Except String String)
    (has_callback : Bool) (total : Nat) (l : List (Nat × String)) :
    ((batchLoop outcome has_callback total l).1).all
        (fun pr => pr.2.status == "success" || pr.2.status == "error") = true := by
  induction l with
  | nil => rfl
  | cons hd tl ih =>
      obtain ⟨i, p⟩ := hd
      simp only [batchLoop, List.all_cons, ih, Bool.and_true]
      cases h : outcome i <;> simp [batchStep, h]

/-- C1: extract_text_batch on N image paths returns a result mapping whose key
list is exactly [0, ..., N-1] (no index missing, duplicated, or out of order)
and every entry is tagged success or error, for every outcome oracle — hence
for any number of raising per-page transcription calls — and every callback
configuration; the loop never aborts early. -/
theorem extract_text_batch_total_coverage (image_paths : List String)
    (outcome : Nat → Except String String) (has_callback : Bool) :
    ((extract_text_batch image_paths outcome has_callback).1).map Prod.fst
        = List.range image_paths.length ∧
    ((extract_text_batch image_paths outcome has_callback).1).all
        (fun pr => pr.2.status == "success" || pr.2.status == "error") = true := by
  constructor
  · rw [extract_text_batch, batchLoop_keys, List.enum_map_fst]
  · exact batchLoop_status outcome has_callback image_paths.length image_paths.enum

/-- Callback invocations of the batch loop: exactly one invocation (i+1, total)
per enumerated index whose transcription call returns ok, in input order; none
for indices whose call raises. -/
theorem batchLoop_callbacks (outcome : Nat → Except String String)
    (total : Nat) (l : List (Nat × String)) :
    (batchLoop outcome true total l).2
      = ((l.map Prod.fst).filter (fun i => (outcome i).isOk)).map
          (fun i => (i + 1, total)) := by
  induction l with
  | nil => rfl
  | cons hd tl ih =>
      obtain ⟨i, p⟩ := hd
      cases h : outcome i <;>
        simp [batchLoop, batchStep, h, ih, Except.isOk, Except.toBool]

/-- Without a callback the batch loop invokes nothing. -/
theorem batchLoop_no_callback (outcome : Nat → Except String String)
    (total : Nat) (l : List (Nat × String)) :
    (batchLoop outcome false total l).2 = [] := by
  induction l with
  | nil => rfl
  | cons hd tl ih =>
      obtain ⟨i, p⟩ := hd
      cases h : outcome i <;> simp [batchLoop, batchStep, h, ih]

/-- Counterexample to C2 as stated: a one-page batch whose transcription call
raises records an error result for index 0, yet the supplied progress callback
is invoked zero times, while the claim requires an invocation (1, 1) after the
error result is recorded. -/
theorem extract_text_batch_callback_cex :
    (extract_text_batch ["a.png"] (fun _ => .error "boom") true).1
        = [(0, ⟨1, "오류 발생: boom", "error", "a.png"⟩)] ∧
    (extract_text_batch ["a.png"] (fun _ => .error "boom") true).2 = [] ∧
    ([] : List (Nat × Nat)) ≠ [(1, 1)] :=
  ⟨rfl, rfl, by decide⟩

/-- C2 amended: when a progress callback is supplied, it is invoked exactly
once per success-recorded page, immediately after that page's result is
recorded, with arguments (i+1, N) where i is the page index; error-recorded
pages trigger no invocation, and without a callback nothing is invoked. -/
theorem extract_text_batch_callbacks_on_success (image_paths : List String)
    (outcome : Nat → Except String String) :
    (extract_text_batch image_paths outcome true).2
        = ((List.range image_paths.length).filter
            (fun i => (outcome i).isOk)).map
            (fun i => (i + 1, image_paths.length)) ∧
    (extract_text_batch image_paths outcome false).2 = [] := by
  constructor
  · rw [extract_text_batch, batchLoop_callbacks, List.enum_map_fst]
  · exact batchLoop_no_callback outcome image_paths.length image_paths.enum

end ClaudeOCR

namespace PDFConverter

/-- The flattening step never changes the image dimensions. -/
theorem flattenStep_dims (img : PImage) :
    (flattenStep img).width = img.width ∧ (flattenStep img).height = img.height := by
  unfold flattenStep
  split
  · exact ⟨rfl, rfl⟩
  · split
    · exact ⟨rfl, rfl⟩
    · exact ⟨rfl, rfl⟩

/-- Truncation of width times the scale factor is at least 1000 for positive
dimensions. -/
theorem intTrunc_scale_ge (w h : Nat) (hw : 1 ≤ w) :
    1000 ≤ intTrunc ((w : ℚ) * scale_factor w h) := by
  have hw0 : (0 : ℚ) < (w : ℚ) := by exact_mod_cast hw
  have hmax : (1000 : ℚ) / (w : ℚ) ≤ scale_factor w h := le_max_left _ _
  have key : (1000 : ℚ) ≤ (w : ℚ) * scale_factor w h := by
    calc (1000 : ℚ) = (w : ℚ) * ((1000 : ℚ) / (w : ℚ)) := by
          field_simp
      _ ≤ (w : ℚ) * scale_factor w h :=
          mul_le_mul_of_nonneg_left hmax (le_of_lt hw0)
  have hfloor : (1000 : ℤ) ≤ ⌊(w : ℚ) * scale_factor w h⌋ := by
    apply Int.le_floor.mpr
    exact_mod_cast key
  unfold intTrunc
  omega

/-- C5 amended: for every image with positive dimensions of which at least
one is below 1000 pixels, the preprocessor (with no failing step) resizes
both dimensions by the common scale factor max(1000/width, 1000/height) and,
computing that factor and the products in exact rational arithmetic, both
resulting dimensions are at least 1000 pixels (Python's double-precision
evaluation of the same formula can lose one pixel to rounding). -/
theorem optimize_upscales (img : PImage) (hw : 1 ≤ img.width)
    (hh : 1 ≤ img.height) (hsmall : img.width < 1000 ∨ img.height < 1000) :
    (optimize_image_for_ocr img none).width
        = intTrunc ((img.width : ℚ) * scale_factor img.width img.height) ∧
    (optimize_image_for_ocr img none).height
        = intTrunc ((img.height : ℚ) * scale_factor img.width img.height) ∧
    1000 ≤ (optimize_image_for_ocr img none).width ∧
    1000 ≤ (optimize_image_for_ocr img none).height := by
  have hrun : optimize_image_for_ocr img none
      = sharpnessStep (contrastStep (flattenStep (resizeStep img))) := rfl
  have hres : (resizeStep img).width
        = intTrunc ((img.width : ℚ) * scale_factor img.width img.height) ∧
      (resizeStep img).height
        = intTrunc ((img.height : ℚ) * scale_factor img.width img.height) := by
    unfold resizeStep
    rw [if_pos hsmall]
    exact ⟨rfl, rfl⟩
  have hwidth : (optimize_image_for_ocr img none).width = (resizeStep img).width := by
    rw [hrun]
    show (flattenStep (resizeStep img)).width = (resizeStep img).width
    exact (flattenStep_dims _).1
  have hheight : (optimize_image_for_ocr img none).height = (resizeStep img).height := by
    rw [hrun]
    show (flattenStep (resizeStep img)).height = (resizeStep img).height
    exact (flattenStep_dims _).2
  refine ⟨?_, ?_, ?_, ?_⟩
  · rw [hwidth, hres.1]
  · rw [hheight, hres.2]
  · rw [hwidth, hres.1]
    exact intTrunc_scale_ge img.width img.height hw
  · rw [hheight, hres.2]
    have := intTrunc_scale_ge img.height img.width hh
    rwa [show scale_factor img.height img.width = scale_factor img.width img.height
          from max_comm _ _] at this

/-- Witness for C5 at the concrete 500 by 800 image. -/
theorem optimize_upscales_witness :
    (optimize_image_for_ocr ⟨500, 800, "RGB", 1, 1⟩ none).width
        = intTrunc ((500 : ℚ) * scale_factor 500 800) ∧
    (optimize_image_for_ocr ⟨500, 800, "RGB", 1, 1⟩ none).height
        = intTrunc ((800 : ℚ) * scale_factor 500 800) ∧
    1000 ≤ (optimize_image_for_ocr ⟨500, 800, "RGB", 1, 1⟩ none).width ∧
    1000 ≤ (optimize_image_for_ocr ⟨500, 800, "RGB", 1, 1⟩ none).height :=
  optimize_upscales ⟨500, 800, "RGB", 1, 1⟩ (by decide) (by decide)
    (Or.inl (by decide))

/-- Counterexample to C5 as stated: under the Python double-precision float
arithmetic the source actually runs, a 19 by 19 image is rescaled to 999 by
999 — int(19 * (1000 / 19)) is int(999.9999999999999) = 999 — so the returned
dimensions are not both at least 1000. -/
theorem resizeStepFloat_cex :
    (resizeStepFloat ⟨19, 19, "RGB", 1, 1⟩).width = 999 ∧
    (resizeStepFloat ⟨19, 19, "RGB", 1, 1⟩).height = 999 ∧
    ¬ 1000 ≤ (resizeStepFloat ⟨19, 19, "RGB", 1, 1⟩).width := by
  refine ⟨by decide, by decide, by decide⟩

/-- Counterexample to C6 as stated: on a 500 by 500 RGB input whose contrast
step fails, the except-handler returns the already-resized 1000 by 1000 image,
not the original input unchanged. -/
theorem optimize_failure_cex :
    optimize_image_for_ocr ⟨500, 500, "RGB", 1, 1⟩ (some .contrast)
        ≠ ⟨500, 500, "RGB", 1, 1⟩ ∧
    (optimize_image_for_ocr ⟨500, 500, "RGB", 1, 1⟩ (some .contrast)).width
        = 1000 := by
  have hsf : scale_factor 500 500 = 2 := by
    unfold scale_factor
    norm_num
  have hw : intTrunc ((500 : ℚ) * scale_factor 500 500) = 1000 := by
    rw [hsf]
    unfold intTrunc
    rw [show (500 : ℚ) * 2 = ((1000 : ℤ) : ℚ) by norm_num, Int.floor_intCast]
    rfl
  have hopt : optimize_image_for_ocr ⟨500, 500, "RGB", 1, 1⟩ (some .contrast)
      = ⟨intTrunc ((500 : ℚ) * scale_factor 500 500),
         intTrunc ((500 : ℚ) * scale_factor 500 500), "RGB", 1, 1⟩ := rfl
  constructor
  · rw [hopt, hw]
    intro hcon
    exact absurd (congrArg PImage.width hcon) (by decide)
  · rw [hopt]
    exact hw

/-- C6 amended: whenever a step of the preprocessor fails, the function
returns — without raising — the current value of the image variable, namely
the input transformed by all steps preceding the failing one; this equals the
original input exactly for a failure at the first step, before any
transformation has been applied. -/
theorem optimize_failure_returns_current (img : PImage) (s : OptStep) :
    optimize_image_for_ocr img (some s)
        = (optSteps.takeWhile (fun t => t != s)).foldl
            (fun i t => applyStep t i) img ∧
    optimize_image_for_ocr img (some .resize) = img := by
  constructor
  · cases s <;> rfl
  · rfl

/-- C7: when the poppler check fails, convert_pdf_to_images returns the
distinct missing-rasterizer error with its actionable installation message,
and the event trace is empty: no temporary directory, no named directory and
no image file is created, for every output-folder and page-range argument. -/
theorem convert_pdf_missing_poppler (env : ConvEnv) (out : Option String)
    (fp : Option Nat) (h : env.poppler_ok = false) :
    (convert_pdf_to_images env out fp).1
        = .error (.pdfInfoNotInstalled
            "Poppler이 설치되지 않았습니다. 설치 가이드를 확인해주세요.") ∧
    (convert_pdf_to_images env out fp).2 = [] := by
  unfold convert_pdf_to_images
  rw [h]
  exact ⟨rfl, rfl⟩

/-- Witness for C7 at a concrete environment without poppler. -/
theorem convert_pdf_missing_poppler_witness :
    (convert_pdf_to_images ⟨false, "/tmp/t", .ok [], fun _ => true⟩ none none).1
        = .error (.pdfInfoNotInstalled
            "Poppler이 설치되지 않았습니다. 설치 가이드를 확인해주세요.") ∧
    (convert_pdf_to_images ⟨false, "/tmp/t", .ok [], fun _ => true⟩ none none).2
        = [] :=
  convert_pdf_missing_poppler ⟨false, "/tmp/t", .ok [], fun _ => true⟩
    none none rfl

end PDFConverter

namespace FileManager

/-- Counterexample to C9 as stated: with the FPDF library available but its
Unicode font asset unavailable, save_as_pdf_fpdf renders with the FPDF backend
using the built-in Arial font; it does not fall back to the ReportLab
backend. -/
theorem save_as_pdf_font_cex :
    (save_as_pdf_fpdf ⟨true, false, true, true⟩).2.1 = PdfBackend.fpdf ∧
    PdfBackend.fpdf ≠ PdfBackend.reportlab ∧
    (save_as_pdf_fpdf ⟨true, false, true, true⟩).2.2 = some "Arial" := by
  refine ⟨rfl, by decide, rfl⟩

/-- C9 amended: when the FPDF library is unavailable, save_as_pdf_fpdf
transparently delegates to the ReportLab backend and returns its result; when
FPDF is available but its Unicode font asset is unavailable, it degrades
within FPDF, proceeding with the built-in Arial font instead of failing the
request. -/
theorem save_as_pdf_fpdf_fallback (env : PdfEnv) :
    (env.fpdf_available = false →
        save_as_pdf_fpdf env = (env.reportlab_result, .reportlab, none)) ∧
    (env.fpdf_available = true → env.unicode_font_ok = false →
        (save_as_pdf_fpdf env).2 = (.fpdf, some "Arial")) := by
  constructor
  · intro h
    simp [save_as_pdf_fpdf, h]
  · intro h hf
    cases ho : env.fpdf_output_ok <;> simp [save_as_pdf_fpdf, h, hf, ho]

/-- Witness for C9's amended statement at concrete environments. -/
theorem save_as_pdf_fpdf_fallback_witness :
    save_as_pdf_fpdf ⟨false, true, true, true⟩ = (true, .reportlab, none) ∧
    (save_as_pdf_fpdf ⟨true, false, true, true⟩).2 = (.fpdf, some "Arial") :=
  ⟨(save_as_pdf_fpdf_fallback ⟨false, true, true, true⟩).1 rfl,
   (save_as_pdf_fpdf_fallback ⟨true, false, true, true⟩).2 rfl rfl⟩

end FileManager

namespace FileManager

/-- The save_as_txt page loop over a contiguous ascending key list whose last
element is the maximum key equals the separator-interleaved join of the page
blocks: the loop writes the separator exactly between consecutive pages. -/
theorem txtLoop_range' (res : Nat → ClaudeOCR.PageResult) (inc : Bool)
    (sep : String) :
    ∀ c s maxKey, s + c = maxKey + 1 →
      txtLoop res inc sep maxKey (List.range' s c)
        = sepJoin sep ((List.range' s c).map (fun i => txtPageBlock inc (res i))) := by
  intro c
  induction c with
  | zero =>
      intro s maxKey h
      rfl
  | succ c ih =>
      intro s maxKey h
      cases c with
      | zero =>
          have hs : s = maxKey := by omega
          subst hs
          simp [txtLoop, sepJoin, List.range'_one, String.append_empty]
      | succ d =>
          have hlt : s < maxKey := by omega
          have ih' := ih (s + 1) maxKey (by omega)
          rw [List.range'_succ s (d + 1) 1]
          show txtPageBlock inc (res s) ++ (if s < maxKey then sep else "")
                ++ txtLoop res inc sep maxKey (List.range' (s + 1) (d + 1))
              = sepJoin sep (List.map (fun i => txtPageBlock inc (res i))
                  (s :: List.range' (s + 1) (d + 1)))
          rw [if_pos hlt, ih', List.range'_succ (s + 1) d 1]
          simp only [List.map_cons, sepJoin]

/-- C8: save_as_txt on a result mapping with keys 0..n-1 produces exactly the
layout the spec describes — header banner declaring n, the page blocks in
ascending key order (optional page label, text error-prefixed exactly when the
status is not success) joined by the separator with no separator after the
last page, then the footer banner with the total count — and in particular a
zero-page mapping yields just the banners around an empty body and a one-page
mapping yields a single page block with no interior separator. -/
theorem save_as_txt_layout (n : Nat) (res : Nat → ClaudeOCR.PageResult)
    (inc : Bool) (sep : String) :
    save_as_txt n res inc sep = save_as_txt_spec n res inc sep ∧
    save_as_txt 0 res inc sep = txtHeader 0 ++ txtFooter 0 ∧
    save_as_txt 1 res inc sep
      = txtHeader 1 ++ txtPageBlock inc (res 0) ++ txtFooter 1 := by
  have main : ∀ m : Nat, save_as_txt m res inc sep = save_as_txt_spec m res inc sep := by
    intro m
    cases m with
    | zero => rfl
    | succ k =>
        unfold save_as_txt save_as_txt_spec
        rw [List.range_eq_range']
        rw [show k + 1 - 1 = k from rfl]
        rw [txtLoop_range' res inc sep (k + 1) 0 k (by omega)]
        rfl
  refine ⟨main n, ?_, ?_⟩
  · rfl
  · simp [save_as_txt, txtLoop, txtHeader, txtFooter, List.range_succ,
      String.append_empty, String.append_assoc]

end FileManager
